import Mathlib

/-!
Shallow embedding of the TailorTalk booking assistant (agent.py, tools.py,
calendar_utils.py, main.py, streamlit_app.py), with theorems settling the
frozen claims about its behaviour.

Time is modelled in minutes.  An ISO timestamp string is represented by its
parse class (naive wall clock, explicit offset, trailing Z, or unparseable),
and an aware datetime by its absolute instant together with the UTC offset
it is rendered in.  Timezones are modelled as fixed UTC offsets in minutes
(Asia/Kolkata = +330, which is exact since India observes no DST).
External collaborators (the Google Calendar provider, the HTTP transport,
the LLM agent executor) are parameters of the embedded functions, and
remote calls are logged explicitly in the result, so that statements about
a call not being made are expressible.
-/

/-- A single quote character, used to build the string literals of the
source that contain quotes. -/
def squote : String := String.singleton (Char.ofNat 39)

/-- A Python ISO-8601 timestamp string, represented by its parse class.
`wall` is the wall-clock reading of the string in minutes; `withOffset`
carries an explicit UTC offset in minutes (the +HH:MM suffix); `zulu` is a
trailing Z; `invalid` is any string `datetime.fromisoformat` rejects. -/
inductive TimeStr
  | naive (wall : Int)
  | withOffset (wall : Int) (off : Int)
  | zulu (wall : Int)
  | invalid (s : String)
deriving DecidableEq, Repr

/-- A Python `datetime` value: a wall clock in minutes plus an optional
UTC offset (none = timezone-naive). -/
structure PyDt where
  wall : Int
  tzOffset : Option Int
deriving DecidableEq, Repr

/-- Embedding of `datetime.fromisoformat` (Python 3.11 semantics, where a
trailing Z is accepted and read as +00:00); returns none where the source
raises ValueError. -/
def fromisoformat : TimeStr → Option PyDt
  | .naive w => some ⟨w, none⟩
  | .withOffset w o => some ⟨w, some o⟩
  | .zulu w => some ⟨w, some 0⟩
  | .invalid _ => none

/-- Embedding of `s.replace(Z, +00:00)` as applied to timestamp strings in
calendar_utils.py lines 104-105: a trailing Z becomes an explicit +00:00
offset; every other parse class is unchanged. -/
def replaceZ : TimeStr → TimeStr
  | .zulu w => .withOffset w 0
  | t => t

/-- An aware datetime: an absolute instant (minutes since the epoch) and
the UTC offset (minutes) of the zone it is rendered in.  Its wall-clock
reading is `instant + offset`. -/
structure Aware where
  instant : Int
  offset : Int
deriving DecidableEq, Repr

/-- Embedding of Python `dt.astimezone(tz)` where `tz` has fixed offset
`tzOff` and the ambient system-local timezone has offset `sysOff`: a naive
datetime is presumed to be wall-clock time in the SYSTEM timezone (Python
documented semantics), an aware one keeps its instant; the result is
rendered in the target zone. -/
def astimezone (sysOff tzOff : Int) (dt : PyDt) : Aware :=
  match dt.tzOffset with
  | none => ⟨dt.wall - sysOff, tzOff⟩
  | some o => ⟨dt.wall - o, tzOff⟩

/-- Fixed-offset model of `pytz.timezone` for the zones exercised by the
code and its defaults; an unknown zone name raises (none). -/
def pytzOffset : String → Option Int
  | "Asia/Kolkata" => some 330
  | "UTC" => some 0
  | _ => none

/-- Absolute instant denoted by an aware (offset-carrying or Z-suffixed)
timestamp string; none for naive or unparseable strings. -/
def utcInstant : TimeStr → Option Int
  | .zulu w => some w
  | .withOffset w o => some (w - o)
  | _ => none

/-- A chat history entry as produced by the front end and validated by the
ChatRequest model in main.py: a role string and a content string. -/
structure ChatMsg where
  role : String
  content : String
deriving DecidableEq, Repr

/-- A LangChain message as built in agent.py lines 79-84. -/
inductive LCMessage
  | human (content : String)
  | ai (content : String)
deriving DecidableEq, Repr

/-- The history-conversion loop of invoke_agent (agent.py lines 79-84):
entries with role user or assistant are appended to the accumulator as the
matching LangChain message; any other role falls through both branches. -/
def lcHistoryLoop (acc : List LCMessage) : List ChatMsg → List LCMessage
  | [] => acc
  | msg :: rest =>
    if msg.role = "user" then
      lcHistoryLoop (acc ++ [.human msg.content]) rest
    else if msg.role = "assistant" then
      lcHistoryLoop (acc ++ [.ai msg.content]) rest
    else
      lcHistoryLoop acc rest

/-- The converted history handed to the agent executor (agent.py line 79,
`lc_chat_history` starts empty). -/
def lc_chat_history (h : List ChatMsg) : List LCMessage :=
  lcHistoryLoop [] h

/-- The role-wise mapping realised by the conversion loop: user becomes a
human message, assistant an AI message, anything else is dropped. -/
def roleToLC (m : ChatMsg) : Option LCMessage :=
  if m.role = "user" then some (.human m.content)
  else if m.role = "assistant" then some (.ai m.content)
  else none

/-- The default reply used when the executor result has no output key
(agent.py line 98). -/
def defaultReply : String :=
  "I" ++ squote ++ "m sorry, I couldn" ++ squote ++ "t process that request."

/-- The apology string returned when invoking the agent raises
(agent.py line 101). -/
def apology (e : String) : String :=
  "I apologize, but I encountered an error: " ++ e ++ ". Please try again."

/-- Embedding of invoke_agent (agent.py lines 78-101).  The LLM executor
is the parameter `agentExecutorInvoke`: it receives the user message, the
converted history and the current-time string, and either returns a result
whose optional output field models `result.get` with the output key, or
raises (Except.error).  The embedded function itself returns
`Except String String` so that an unhandled Python exception escaping
invoke_agent would be an `Except.error`; the try block around the executor
call maps a raise to the apology reply. -/
def invoke_agent
    (agentExecutorInvoke : String → List LCMessage → String → Except String (Option String))
    (now_ist : String)
    (user_message : String) (chat_history : List ChatMsg) : Except String String :=
  let lc := lc_chat_history chat_history
  match agentExecutorInvoke user_message lc now_ist with
  | .ok result => .ok (result.getD defaultReply)
  | .error e => .ok (apology e)

/-- Outcome of a remote Google Calendar call: a value, an HttpError carrying
the provider status and response content, or any other raised exception. -/
inductive ProviderOutcome (α : Type)
  | ok (v : α)
  | httpError (status : Nat) (content : String)
  | exc (msg : String)

/-- The free/busy query body built in calendar_utils.py lines 89-94:
timeMin/timeMax are the isoformat renderings of the converted datetimes,
plus the timezone name and the single queried calendar id. -/
structure FreeBusyRequest where
  timeMin : Aware
  timeMax : Aware
  timeZone : String
  calendarId : String
deriving DecidableEq, Repr

/-- A busy interval as it appears in the provider response: a pair of
timestamp strings (Google renders them in UTC with a trailing Z). -/
structure RawSlot where
  start : TimeStr
  end_ : TimeStr
deriving DecidableEq, Repr

/-- The dictionary returned by check_calendar_availability: the formatted
busy slots (kept as the aware datetimes whose isoformat renderings the
source puts in the dict) and the optional error string. -/
structure AvailResult where
  busy_slots : List (Aware × Aware)
  error : Option String
deriving DecidableEq, Repr

/-- Error string of calendar_utils.py lines 80 and 148. -/
def svcNotInitMsg : String :=
  "Calendar service not initialized. Check service account key path."

/-- The generic except-branch wrapper of calendar_utils.py lines 117/194. -/
def unexpectedErr (m : String) : String :=
  "An unexpected error occurred: " ++ m

/-- The HttpError branch wrapper of calendar_utils.py lines 114/191. -/
def apiErr (status : Nat) (content : String) : String :=
  "Google Calendar API error: " ++ toString status ++ " - " ++ content

/-- Message standing for the ValueError text of an unparseable timestamp. -/
def parseErrMsg : String := "Invalid isoformat string"

/-- Message standing for the pytz UnknownTimeZoneError text. -/
def unknownTzMsg : String := "Unknown timezone"

/-- The per-slot conversion of calendar_utils.py lines 102-109: replace a
trailing Z by +00:00, parse, and convert into the requested zone; an
unparseable slot string raises. -/
def formatSlot (sysOff tzOff : Int) (s : RawSlot) : Except String (Aware × Aware) :=
  match fromisoformat (replaceZ s.start) with
  | none => .error parseErrMsg
  | some a =>
    match fromisoformat (replaceZ s.end_) with
    | none => .error parseErrMsg
    | some b => .ok (astimezone sysOff tzOff a, astimezone sysOff tzOff b)

/-- The formatting loop over the provider busy list (calendar_utils.py
lines 101-109); the first raising slot aborts the loop. -/
def formatSlots (sysOff tzOff : Int) : List RawSlot → Except String (List (Aware × Aware))
  | [] => .ok []
  | s :: rest => do
    let p ← formatSlot sysOff tzOff s
    let ps ← formatSlots sysOff tzOff rest
    pure (p :: ps)

/-- Embedding of check_calendar_availability (calendar_utils.py lines
60-117).  `sysOff` is the ambient system-local timezone offset, `serviceUp`
whether the module-level CALENDAR_SERVICE initialized, and `query` the
provider free/busy call.  The second component records the provider
requests actually issued. -/
def check_calendar_availability
    (sysOff : Int) (serviceUp : Bool)
    (query : FreeBusyRequest → ProviderOutcome (List RawSlot))
    (calendar_id : String) (start_time_str end_time_str : TimeStr)
    (timezone : String) :
    AvailResult × List FreeBusyRequest :=
  if serviceUp then
    match fromisoformat start_time_str with
    | none => (⟨[], some (unexpectedErr parseErrMsg)⟩, [])
    | some sdt =>
      match pytzOffset timezone with
      | none => (⟨[], some (unexpectedErr unknownTzMsg)⟩, [])
      | some tzOff =>
        let start_dt := astimezone sysOff tzOff sdt
        match fromisoformat end_time_str with
        | none => (⟨[], some (unexpectedErr parseErrMsg)⟩, [])
        | some edt =>
          let end_dt := astimezone sysOff tzOff edt
          let req : FreeBusyRequest := ⟨start_dt, end_dt, timezone, calendar_id⟩
          let result : AvailResult :=
            match query req with
            | .ok slots =>
              match formatSlots sysOff tzOff slots with
              | .ok fs => ⟨fs, none⟩
              | .error m => ⟨[], some (unexpectedErr m)⟩
            | .httpError st c => ⟨[], some (apiErr st c)⟩
            | .exc m => ⟨[], some (unexpectedErr m)⟩
          (result, [req])
  else
    (⟨[], some svcNotInitMsg⟩, [])

/-- A reminder override entry of the event body. -/
structure Reminder where
  method : String
  minutes : Nat
deriving DecidableEq, Repr

/-- The reminders object of the event body. -/
structure Reminders where
  useDefault : Bool
  overrides : List Reminder
deriving DecidableEq, Repr

/-- A start or end object of the event body: the isoformat rendering of
the converted datetime plus the timezone name. -/
structure EventDateTime where
  dateTime : Aware
  timeZone : String
deriving DecidableEq, Repr

/-- The event body built in calendar_utils.py lines 159-179 and sent to
the provider insert call.  description and location may be None when the
facade forwards omitted request fields. -/
structure EventBody where
  summary : String
  description : Option String
  location : Option String
  start : EventDateTime
  end_ : EventDateTime
  attendees : List String
  reminders : Reminders
deriving DecidableEq, Repr

/-- The provider response to an insert: the optional id and htmlLink
fields read with dict get. -/
structure CreatedEvent where
  id : Option String
  htmlLink : Option String
deriving DecidableEq, Repr

/-- The dictionary returned by create_calendar_event. -/
structure CreateResult where
  event_id : Option String
  html_link : Option String
  error : Option String
deriving DecidableEq, Repr

/-- Embedding of create_calendar_event (calendar_utils.py lines 120-194).
`insert` is the provider events insert call, taking the calendarId and the
event body; the second component records the insert calls actually
issued. -/
def create_calendar_event
    (sysOff : Int) (serviceUp : Bool)
    (insert : String → EventBody → ProviderOutcome CreatedEvent)
    (calendar_id summary : String)
    (start_time_str end_time_str : TimeStr)
    (description location : Option String)
    (attendees : Option (List String))
    (timezone : String) :
    CreateResult × List (String × EventBody) :=
  if serviceUp then
    let atts := attendees.getD []
    match fromisoformat start_time_str with
    | none => (⟨none, none, some (unexpectedErr parseErrMsg)⟩, [])
    | some sdt =>
      match pytzOffset timezone with
      | none => (⟨none, none, some (unexpectedErr unknownTzMsg)⟩, [])
      | some tzOff =>
        let start_dt := astimezone sysOff tzOff sdt
        match fromisoformat end_time_str with
        | none => (⟨none, none, some (unexpectedErr parseErrMsg)⟩, [])
        | some edt =>
          let end_dt := astimezone sysOff tzOff edt
          let event : EventBody :=
            { summary := summary
              description := description
              location := location
              start := ⟨start_dt, timezone⟩
              end_ := ⟨end_dt, timezone⟩
              attendees := atts
              reminders := ⟨false, [⟨"email", 24 * 60⟩, ⟨"popup", 10⟩]⟩ }
          let result : CreateResult :=
            match insert calendar_id event with
            | .ok created => ⟨created.id, created.htmlLink, none⟩
            | .httpError st c => ⟨none, none, some (apiErr st c)⟩
            | .exc m => ⟨none, none, some (unexpectedErr m)⟩
          (result, [(calendar_id, event)])
  else
    (⟨none, none, some svcNotInitMsg⟩, [])

/-- Exception classes the tool functions distinguish (tools.py lines
47-52 and 100-105): a requests RequestException (including the non-2xx
raise of raise_for_status) versus any other exception. -/
inductive PostErr
  | reqExc (msg : String)
  | otherExc (msg : String)
deriving DecidableEq, Repr

/-- The JSON payload POSTed to the check-availability endpoint
(tools.py lines 39-43). -/
structure CheckPayload where
  start_time : TimeStr
  end_time : TimeStr
  timezone : String
deriving DecidableEq, Repr

/-- The JSON payload POSTed to the create-event endpoint
(tools.py lines 88-96). -/
structure CreatePayload where
  summary : String
  start_time : TimeStr
  end_time : TimeStr
  description : Option String
  location : Option String
  timezone : String
deriving DecidableEq, Repr

/-- What a tool function hands back to the agent: either the JSON body of
the backend response, or a dictionary with an error text field. -/
inductive ToolResult (J : Type)
  | payload (j : J)
  | errorDict (error : String)
deriving DecidableEq, Repr

/-- The validation error dictionary text of tools.py lines 37 and 86. -/
def invalidTimeMsg : String :=
  "Invalid time format. Please provide times in ISO format (YYYY-MM-DDTHH:MM:SS)."

/-- Embedding of check_calendar_availability_tool (tools.py lines 12-52).
`post` models requests.post plus raise_for_status plus response.json
against the backend; the second component records the HTTP requests
actually issued.  The inner try/except ValueError is the parseability
check on both timestamps; the outer try/except turns any raise into an
error dictionary, so the embedded function is total. -/
def check_calendar_availability_tool {J : Type}
    (post : CheckPayload → Except PostErr J)
    (start_time_str end_time_str : TimeStr) (timezone : String) :
    ToolResult J × List CheckPayload :=
  if (fromisoformat start_time_str).isNone || (fromisoformat end_time_str).isNone then
    (.errorDict invalidTimeMsg, [])
  else
    let payload : CheckPayload := ⟨start_time_str, end_time_str, timezone⟩
    match post payload with
    | .ok j => (.payload j, [payload])
    | .error (.reqExc m) => (.errorDict ("Failed to check availability: " ++ m), [payload])
    | .error (.otherExc m) => (.errorDict (unexpectedErr m), [payload])

/-- Embedding of create_calendar_event_tool (tools.py lines 55-105), with
the same conventions as the availability tool. -/
def create_calendar_event_tool {J : Type}
    (post : CreatePayload → Except PostErr J)
    (summary : String) (start_time_str end_time_str : TimeStr)
    (description location : Option String) (timezone : String) :
    ToolResult J × List CreatePayload :=
  if (fromisoformat start_time_str).isNone || (fromisoformat end_time_str).isNone then
    (.errorDict invalidTimeMsg, [])
  else
    let payload : CreatePayload :=
      ⟨summary, start_time_str, end_time_str, description, location, timezone⟩
    match post payload with
    | .ok j => (.payload j, [payload])
    | .error (.reqExc m) => (.errorDict ("Failed to create event: " ++ m), [payload])
    | .error (.otherExc m) => (.errorDict (unexpectedErr m), [payload])

/-- An HTTP boundary outcome: a success body or a raised HTTPException
with status code and detail. -/
inductive EndpointResponse (α : Type)
  | ok (body : α)
  | httpException (status : Nat) (detail : String)
deriving DecidableEq, Repr

/-- Request body of the check-availability endpoint (main.py lines 50-53;
the timezone field defaults to Asia/Kolkata at the pydantic layer). -/
structure AvailabilityCheckRequest where
  start_time : TimeStr
  end_time : TimeStr
  timezone : String
deriving DecidableEq, Repr

/-- Request body of the create-event endpoint (main.py lines 56-62). -/
structure CreateEventRequest where
  summary : String
  start_time : TimeStr
  end_time : TimeStr
  description : Option String
  location : Option String
  timezone : String
deriving DecidableEq, Repr

/-- Request body of the chat endpoint (main.py lines 65-68). -/
structure ChatRequest where
  user_message : String
  chat_history : List ChatMsg
deriving DecidableEq, Repr

/-- Success body of the create-event endpoint (main.py lines 132-136). -/
structure CreateEventSuccess where
  message : String
  event_id : Option String
  html_link : Option String
deriving DecidableEq, Repr

/-- The 503 detail string of main.py lines 88-89 and 112-113. -/
def detail503 : String :=
  "Google Calendar service not initialized. Check server logs for details (e.g., missing service account key)."

/-- The arguments main.py passes to check_calendar_availability. -/
structure GatewayAvailCall where
  calendar_id : String
  start_time_str : TimeStr
  end_time_str : TimeStr
  timezone : String
deriving DecidableEq, Repr

/-- The arguments main.py passes to create_calendar_event (attendees is
left at its default). -/
structure GatewayCreateCall where
  calendar_id : String
  summary : String
  start_time_str : TimeStr
  end_time_str : TimeStr
  description : Option String
  location : Option String
  timezone : String
deriving DecidableEq, Repr

/-- Embedding of the check-availability endpoint get_availability
(main.py lines 80-102).  `gateway` is the imported
check_calendar_availability function; the second component records the
gateway invocations actually made, so that the uninitialized branch can be
seen not to call it. -/
def get_availability
    (serviceUp : Bool)
    (gateway : String → TimeStr → TimeStr → String → AvailResult)
    (google_calendar_id : String) (request : AvailabilityCheckRequest) :
    EndpointResponse (List (Aware × Aware)) × List GatewayAvailCall :=
  if serviceUp then
    let call : GatewayAvailCall :=
      ⟨google_calendar_id, request.start_time, request.end_time, request.timezone⟩
    let result := gateway google_calendar_id request.start_time request.end_time request.timezone
    match result.error with
    | some e => (.httpException 500 e, [call])
    | none => (.ok result.busy_slots, [call])
  else
    (.httpException 503 detail503, [])

/-- Embedding of the create-event endpoint create_event (main.py lines
105-136), with the same conventions as get_availability. -/
def create_event
    (serviceUp : Bool)
    (gateway : String → String → TimeStr → TimeStr → Option String → Option String → String → CreateResult)
    (google_calendar_id : String) (request : CreateEventRequest) :
    EndpointResponse CreateEventSuccess × List GatewayCreateCall :=
  if serviceUp then
    let call : GatewayCreateCall :=
      ⟨google_calendar_id, request.summary, request.start_time, request.end_time,
        request.description, request.location, request.timezone⟩
    let result := gateway google_calendar_id request.summary request.start_time
      request.end_time request.description request.location request.timezone
    match result.error with
    | some e => (.httpException 500 e, [call])
    | none => (.ok ⟨"Event created successfully!", result.event_id, result.html_link⟩, [call])
  else
    (.httpException 503 detail503, [])

/-- Embedding of the chat endpoint chat_with_agent (main.py lines 139-158):
the imported invoke_agent is called inside a try block; a raise becomes a
500 HTTPException. -/
def chat_with_agent
    (invoke : String → List ChatMsg → Except String String)
    (request : ChatRequest) : EndpointResponse String :=
  match invoke request.user_message request.chat_history with
  | .ok r => .ok r
  | .error e => .httpException 500 ("Error processing message: " ++ e)

/-- Embedding of the module-level CALENDAR_ID of calendar_utils.py line
21: os.getenv with the default, so an absent variable yields the string
primary (an empty value is returned as is). -/
def calendar_utils_CALENDAR_ID (env : String → Option String) : String :=
  (env "GOOGLE_CALENDAR_ID").getD "primary"

/-- The ValueError text of main.py line 47. -/
def calendarIdMissingMsg : String :=
  "GOOGLE_CALENDAR_ID environment variable not set. Please set it in your .env file."

/-- Embedding of main.py lines 45-47: GOOGLE_CALENDAR_ID is read with no
default and a falsy value (absent or empty) raises ValueError at import
time, aborting startup. -/
def main_GOOGLE_CALENDAR_ID (env : String → Option String) : Except String String :=
  match env "GOOGLE_CALENDAR_ID" with
  | some v => if v = "" then .error calendarIdMissingMsg else .ok v
  | none => .error calendarIdMissingMsg

/-- The locally synthesized assistant reply of streamlit_app.py line 40. -/
def echoResponse (prompt : String) : String :=
  "You said: " ++ squote ++ prompt ++ squote ++ ". (This will be processed by the AI soon!)"

/-- Embedding of the chat input handler of streamlit_app.py lines 28-42:
the user message is appended to the session history, an assistant reply is
synthesized locally, and no request is sent to the backend.  The second
component records the chat requests sent to the facade (none are). -/
def handle_chat_input (messages : List ChatMsg) (prompt : String) :
    List ChatMsg × List ChatRequest :=
  let messages := messages ++ [⟨"user", prompt⟩]
  let response := echoResponse prompt
  let messages := messages ++ [⟨"assistant", response⟩]
  (messages, [])

/-- The normalization described by the specification sentence for a
timezone-naive input: read the wall clock in the requested target zone.
Written from the words of the claim, for comparison with the code. -/
def targetZoneInterpretation (wall tzOff : Int) : Aware :=
  ⟨wall - tzOff, tzOff⟩

/-- The rendering, in the zone with offset `tzOff`, of a provider busy
timestamp: its absolute instant paired with the zone offset (a trailing Z
read as offset +00:00). -/
def awareFormatted (tzOff : Int) (sl : RawSlot) : Aware × Aware :=
  (⟨(utcInstant sl.start).getD 0, tzOff⟩, ⟨(utcInstant sl.end_).getD 0, tzOff⟩)

/-- The event body the gateway builds for the concrete witness inputs:
summary s, naive wall clocks 540 and 600, system offset 0, zone
Asia/Kolkata, no description, location or attendees. -/
def sampleEventBody : EventBody :=
  { summary := "s", description := none, location := none,
    start := ⟨⟨540, 330⟩, "Asia/Kolkata"⟩, end_ := ⟨⟨600, 330⟩, "Asia/Kolkata"⟩,
    attendees := [],
    reminders := ⟨false, [⟨"email", 1440⟩, ⟨"popup", 10⟩]⟩ }

theorem lcHistoryLoop_eq (h : List ChatMsg) :
    ∀ acc, lcHistoryLoop acc h = acc ++ h.filterMap roleToLC := by
  induction h with
  | nil => intro acc; simp [lcHistoryLoop]
  | cons m rest ih =>
    intro acc
    by_cases hu : m.role = "user"
    · simp [lcHistoryLoop, roleToLC, hu, ih]
    · by_cases ha : m.role = "assistant"
      · simp [lcHistoryLoop, roleToLC, hu, ha, ih]
      · simp [lcHistoryLoop, roleToLC, hu, ha, ih]

/-- C10: chat history entries whose role is neither user nor assistant are
silently dropped by the history conversion of invoke_agent: the conversion
is total (no error is raised), the surviving entries keep their original
order, and each is mapped to the message kind matching its role; in
particular an entry with role system disappears from the converted
history. -/
theorem lc_history_drops_unknown_roles :
    (∀ h : List ChatMsg, lc_chat_history h = h.filterMap roleToLC) ∧
    (∀ (s : String) (t : List ChatMsg),
      lc_chat_history (⟨"system", s⟩ :: t) = lc_chat_history t) := by
  constructor
  · intro h
    simpa using lcHistoryLoop_eq h []
  · intro s t
    simp [lc_chat_history, lcHistoryLoop]

/-- C2: invoke_agent always completes with some reply string for every
executor behaviour, user message and chat history; when the executor call
raises, the exception is caught and converted into the user-facing apology
string, and consequently the chat endpoint built on it always produces a
response rather than an unhandled fault. -/
theorem invoke_agent_always_replies :
    ∀ (oracle : String → List LCMessage → String → Except String (Option String))
      (now msg : String) (hist : List ChatMsg),
      (∃ r, invoke_agent oracle now msg hist = .ok r) ∧
      (∀ e, oracle msg (lc_chat_history hist) now = .error e →
        invoke_agent oracle now msg hist = .ok (apology e)) ∧
      (∀ req : ChatRequest, ∃ r,
        chat_with_agent (invoke_agent oracle now) req = .ok r) := by
  intro oracle now msg hist
  refine ⟨?_, ?_, ?_⟩
  · cases horacle : oracle msg (lc_chat_history hist) now with
    | ok r => exact ⟨r.getD defaultReply, by simp [invoke_agent, horacle]⟩
    | error e => exact ⟨apology e, by simp [invoke_agent, horacle]⟩
  · intro e he
    simp [invoke_agent, he]
  · intro req
    cases horacle : oracle req.user_message (lc_chat_history req.chat_history) now with
    | ok r =>
      exact ⟨r.getD defaultReply, by simp [chat_with_agent, invoke_agent, horacle]⟩
    | error e =>
      exact ⟨apology e, by simp [chat_with_agent, invoke_agent, horacle]⟩

/-- C2 witness: a concrete executor that raises is converted into the
apology reply. -/
theorem invoke_agent_always_replies_witness :
    invoke_agent (fun _ _ _ => .error "boom") "now" "hi" [] = .ok (apology "boom") :=
  (invoke_agent_always_replies (fun _ _ _ => .error "boom") "now" "hi" []).2.1 "boom" rfl

/-- C9: the client shell does not forward user input to the facade: on the
concrete input hi it renders a locally synthesized echo reply and issues
zero chat requests to the backend, although the source marks this spot as
the place where the backend call belongs. -/
theorem handle_chat_input_local_echo :
    handle_chat_input [] "hi" =
      ([⟨"user", "hi"⟩,
        ⟨"assistant", "You said: " ++ squote ++ "hi" ++ squote ++
          ". (This will be processed by the AI soon!)"⟩], []) := rfl

/-- C6: with the calendar gateway uninitialized, both boundary operations
report HTTP 503 without invoking the gateway at all, and the gateway
functions themselves return the not-initialized error result without
issuing any provider call. -/
theorem uninitialized_service_no_remote_calls :
    ∀ (availGw : String → TimeStr → TimeStr → String → AvailResult)
      (createGw : String → String → TimeStr → TimeStr → Option String → Option String → String → CreateResult)
      (gcid : String) (areq : AvailabilityCheckRequest) (creq : CreateEventRequest)
      (sysOff : Int)
      (query : FreeBusyRequest → ProviderOutcome (List RawSlot))
      (ins : String → EventBody → ProviderOutcome CreatedEvent)
      (cal summ : String) (st en : TimeStr) (tz : String)
      (d l : Option String) (atts : Option (List String)),
      get_availability false availGw gcid areq = (.httpException 503 detail503, []) ∧
      create_event false createGw gcid creq = (.httpException 503 detail503, []) ∧
      check_calendar_availability sysOff false query cal st en tz =
        (⟨[], some svcNotInitMsg⟩, []) ∧
      create_calendar_event sysOff false ins cal summ st en d l atts tz =
        (⟨none, none, some svcNotInitMsg⟩, []) := by
  intro _ _ _ _ _ _ _ _ _ _ _ _ _ _ _ _
  exact ⟨rfl, rfl, rfl, rfl⟩

/-- C4: every event body the gateway hands to the provider insert call has
default reminders disabled and exactly the two fixed overrides, a passive
email reminder 1440 minutes before and an interruptive popup reminder 10
minutes before; this holds for every caller input, so the policy is not
overridable. -/
theorem create_event_reminder_policy :
    ∀ (sysOff : Int) (serviceUp : Bool)
      (ins : String → EventBody → ProviderOutcome CreatedEvent)
      (cal summ : String) (st en : TimeStr) (d l : Option String)
      (atts : Option (List String)) (tz : String)
      (entry : String × EventBody),
      entry ∈ (create_calendar_event sysOff serviceUp ins cal summ st en d l atts tz).2 →
      entry.2.reminders = ⟨false, [⟨"email", 1440⟩, ⟨"popup", 10⟩]⟩ := by
  intro sysOff serviceUp ins cal summ st en d l atts tz entry h
  simp only [create_calendar_event] at h
  repeat' split at h
  all_goals simp_all

/-- C4 witness: a concrete successful creation issues exactly the fixed
reminder policy. -/
theorem create_event_reminder_policy_witness :
    (("primary", sampleEventBody) ∈
      (create_calendar_event 0 true (fun _ _ => .ok ⟨some "id", some "link"⟩)
        "primary" "s" (.naive 540) (.naive 600) none none none "Asia/Kolkata").2) ∧
    sampleEventBody.reminders = ⟨false, [⟨"email", 1440⟩, ⟨"popup", 10⟩]⟩ :=
  ⟨by decide,
    create_event_reminder_policy 0 true (fun _ _ => .ok ⟨some "id", some "link"⟩)
      "primary" "s" (.naive 540) (.naive 600) none none none "Asia/Kolkata"
      ("primary", sampleEventBody) (by decide)⟩

/-- C3: each tool function is total (any raise inside it is converted into
an error dictionary) and returns either the backend success payload or a
dictionary with an error text field; when either timestamp fails the parse
check, the tool returns the invalid-format error dictionary and issues no
HTTP request at all. -/
theorem tools_uniform_error_shape :
    ∀ {J K : Type}
      (postCheck : CheckPayload → Except PostErr J)
      (postCreate : CreatePayload → Except PostErr K)
      (summ : String) (st en : TimeStr) (tz : String)
      (d l : Option String),
      (((fromisoformat st).isNone || (fromisoformat en).isNone) = true →
        check_calendar_availability_tool postCheck st en tz =
          (.errorDict invalidTimeMsg, []) ∧
        create_calendar_event_tool postCreate summ st en d l tz =
          (.errorDict invalidTimeMsg, [])) ∧
      ((∃ j, (check_calendar_availability_tool postCheck st en tz).1 = .payload j) ∨
        (∃ m, (check_calendar_availability_tool postCheck st en tz).1 = .errorDict m)) ∧
      ((∃ j, (create_calendar_event_tool postCreate summ st en d l tz).1 = .payload j) ∨
        (∃ m, (create_calendar_event_tool postCreate summ st en d l tz).1 = .errorDict m)) := by
  intro J K postCheck postCreate summ st en tz d l
  refine ⟨?_, ?_, ?_⟩
  · intro h
    constructor <;>
      simp [check_calendar_availability_tool, create_calendar_event_tool, h]
  · by_cases h : ((fromisoformat st).isNone || (fromisoformat en).isNone) = true
    · exact Or.inr ⟨invalidTimeMsg, by simp [check_calendar_availability_tool, h]⟩
    · cases hp : postCheck ⟨st, en, tz⟩ with
      | ok j =>
        exact Or.inl ⟨j, by simp [check_calendar_availability_tool, h, hp]⟩
      | error pe =>
        cases pe with
        | reqExc m =>
          exact Or.inr ⟨"Failed to check availability: " ++ m,
            by simp [check_calendar_availability_tool, h, hp]⟩
        | otherExc m =>
          exact Or.inr ⟨unexpectedErr m,
            by simp [check_calendar_availability_tool, h, hp]⟩
  · by_cases h : ((fromisoformat st).isNone || (fromisoformat en).isNone) = true
    · exact Or.inr ⟨invalidTimeMsg, by simp [create_calendar_event_tool, h]⟩
    · cases hp : postCreate ⟨summ, st, en, d, l, tz⟩ with
      | ok j =>
        exact Or.inl ⟨j, by simp [create_calendar_event_tool, h, hp]⟩
      | error pe =>
        cases pe with
        | reqExc m =>
          exact Or.inr ⟨"Failed to create event: " ++ m,
            by simp [create_calendar_event_tool, h, hp]⟩
        | otherExc m =>
          exact Or.inr ⟨unexpectedErr m,
            by simp [create_calendar_event_tool, h, hp]⟩

/-- C3 witness: on a concrete unparseable start timestamp the availability
tool returns the invalid-format error dictionary and makes no HTTP
call. -/
theorem tools_uniform_error_shape_witness :
    ((fromisoformat (.invalid "x")).isNone || (fromisoformat (.naive 0)).isNone) = true ∧
    check_calendar_availability_tool (fun _ => (.ok () : Except PostErr Unit))
        (.invalid "x") (.naive 0) "Asia/Kolkata" =
      (.errorDict invalidTimeMsg, []) :=
  ⟨by decide,
    ((tools_uniform_error_shape (fun _ => (.ok () : Except PostErr Unit))
        (fun _ => (.ok () : Except PostErr Unit)) "s" (.invalid "x") (.naive 0)
        "Asia/Kolkata" none none).1 (by decide)).1⟩

theorem formatSlot_aware (sysOff tzOff : Int) (sl : RawSlot)
    (h1 : (utcInstant sl.start).isSome) (h2 : (utcInstant sl.end_).isSome) :
    formatSlot sysOff tzOff sl = .ok (awareFormatted tzOff sl) := by
  cases sl with
  | mk s e =>
    cases s <;> cases e <;>
      simp_all [formatSlot, replaceZ, fromisoformat, astimezone, awareFormatted, utcInstant]

theorem formatSlots_aware (sysOff tzOff : Int) :
    ∀ slots : List RawSlot,
      (∀ sl ∈ slots, (utcInstant sl.start).isSome ∧ (utcInstant sl.end_).isSome) →
      formatSlots sysOff tzOff slots = .ok (slots.map (awareFormatted tzOff)) := by
  intro slots
  induction slots with
  | nil => intro _; rfl
  | cons sl rest ih =>
    intro h
    have h1 := (h sl (by simp)).1
    have h2 := (h sl (by simp)).2
    have hrest : ∀ x ∈ rest, (utcInstant x.start).isSome ∧ (utcInstant x.end_).isSome :=
      fun x hx => h x (by simp [hx])
    simp [formatSlots, formatSlot_aware sysOff tzOff sl h1 h2, ih hrest]
    rfl

/-- C5: on a successful availability query, every provider busy slot is
converted into the requested zone before being returned: the output slot
carries the same absolute instant as the provider slot (a trailing Z read
as offset +00:00) and is rendered with the offset of the requested
zone. -/
theorem busy_slots_rendered_in_requested_zone :
    ∀ (sysOff : Int) (query : FreeBusyRequest → ProviderOutcome (List RawSlot))
      (cal : String) (st en : TimeStr) (tz : String) (tzOff : Int)
      (sdt edt : PyDt) (slots : List RawSlot),
      pytzOffset tz = some tzOff →
      fromisoformat st = some sdt →
      fromisoformat en = some edt →
      query ⟨astimezone sysOff tzOff sdt, astimezone sysOff tzOff edt, tz, cal⟩ = .ok slots →
      (∀ sl ∈ slots, (utcInstant sl.start).isSome ∧ (utcInstant sl.end_).isSome) →
      (check_calendar_availability sysOff true query cal st en tz).1 =
        ⟨slots.map (awareFormatted tzOff), none⟩ := by
  intro sysOff query cal st en tz tzOff sdt edt slots htz hst hen hq hsl
  simp [check_calendar_availability, hst, htz, hen, hq,
    formatSlots_aware sysOff tzOff slots hsl]

/-- C5 witness: a concrete provider busy slot in UTC Z form comes back at
the same instants rendered with the Asia/Kolkata offset. -/
theorem busy_slots_rendered_witness :
    (check_calendar_availability 0 true
        (fun _ => .ok [⟨.zulu 560, .zulu 580⟩]) "primary"
        (.naive 540) (.naive 600) "Asia/Kolkata").1 =
      ⟨[(⟨560, 330⟩, ⟨580, 330⟩)], none⟩ := by
  have h := busy_slots_rendered_in_requested_zone 0
      (fun _ => .ok [⟨.zulu 560, .zulu 580⟩]) "primary"
      (.naive 540) (.naive 600) "Asia/Kolkata" 330 ⟨540, none⟩ ⟨600, none⟩
      [⟨.zulu 560, .zulu 580⟩] rfl rfl rfl rfl (by decide)
  simpa [awareFormatted, utcInstant] using h

/-- C7: the gateway performs no local ordering validation; with parseable
start and end whose normalized instants are out of order (start at or
after end), the free/busy query and the insert call are still issued with
exactly that window, and a provider HttpError rejection is surfaced as the
error string carrying the provider status and content. -/
theorem no_ordering_validation_provider_error_surfaced :
    ∀ (sysOff : Int) (query : FreeBusyRequest → ProviderOutcome (List RawSlot))
      (ins : String → EventBody → ProviderOutcome CreatedEvent)
      (cal summ : String) (st en : TimeStr) (tz : String) (tzOff : Int)
      (sdt edt : PyDt) (d l : Option String) (atts : Option (List String))
      (status : Nat) (content : String),
      pytzOffset tz = some tzOff →
      fromisoformat st = some sdt →
      fromisoformat en = some edt →
      (astimezone sysOff tzOff edt).instant ≤ (astimezone sysOff tzOff sdt).instant →
      query ⟨astimezone sysOff tzOff sdt, astimezone sysOff tzOff edt, tz, cal⟩ =
        .httpError status content →
      (∀ body, ins cal body = .httpError status content) →
      (check_calendar_availability sysOff true query cal st en tz).2 =
        [⟨astimezone sysOff tzOff sdt, astimezone sysOff tzOff edt, tz, cal⟩] ∧
      (check_calendar_availability sysOff true query cal st en tz).1.error =
        some (apiErr status content) ∧
      (create_calendar_event sysOff true ins cal summ st en d l atts tz).2.length = 1 ∧
      (create_calendar_event sysOff true ins cal summ st en d l atts tz).1.error =
        some (apiErr status content) := by
  intro sysOff query ins cal summ st en tz tzOff sdt edt d l atts status content
    htz hst hen _ hq hins
  refine ⟨?_, ?_, ?_, ?_⟩ <;>
    simp [check_calendar_availability, create_calendar_event, hst, htz, hen, hq, hins]

/-- C7 witness: with start instant 600 after end instant 540 both the
query and the insert are issued and a provider 400 rejection is surfaced
in the error string. -/
theorem no_ordering_validation_witness :
    (check_calendar_availability 0 true (fun _ => .httpError 400 "Bad Request")
        "primary" (.naive 600) (.naive 540) "Asia/Kolkata").1.error =
      some (apiErr 400 "Bad Request") := by
  have h := no_ordering_validation_provider_error_surfaced 0
      (fun _ => .httpError 400 "Bad Request")
      (fun _ _ => .httpError 400 "Bad Request") "primary" "s"
      (.naive 600) (.naive 540) "Asia/Kolkata" 330 ⟨600, none⟩ ⟨540, none⟩
      none none none 400 "Bad Request" rfl rfl rfl (by decide) rfl (fun _ => rfl)
  exact h.2.1

/-- C1 counterexample: with the ambient system timezone UTC (offset 0),
the timezone-naive input with wall clock 540 and target zone Asia/Kolkata
is normalized by the code to the absolute instant 540 (its UTC reading),
not to the instant 210 that reading the wall clock in the target zone
would give: the free/busy request issued carries instant 540, so the naive
timestamp is interpreted in the system zone, not in the requested
zone. -/
theorem naive_input_not_target_zone_counterexample :
    (check_calendar_availability 0 true (fun _ => .ok []) "primary"
        (.naive 540) (.naive 600) "Asia/Kolkata").2 =
      [⟨⟨540, 330⟩, ⟨600, 330⟩, "Asia/Kolkata", "primary"⟩] ∧
    targetZoneInterpretation 540 330 = ⟨210, 330⟩ ∧
    (⟨540, 330⟩ : Aware) ≠ targetZoneInterpretation 540 330 :=
  ⟨by decide, by decide, by decide⟩

/-- C1 amended: a timezone-naive input timestamp is interpreted as a wall
clock in the SYSTEM-local timezone and then converted to the requested
zone: both gateway operations issue their remote call with the instant
wall minus system offset, and this coincides with the target-zone reading
the original claim describes exactly when the system offset equals the
offset of the requested zone. -/
theorem naive_input_system_zone_amended :
    ∀ (sysOff tzOff w1 w2 : Int) (tz cal summ : String)
      (query : FreeBusyRequest → ProviderOutcome (List RawSlot))
      (ins : String → EventBody → ProviderOutcome CreatedEvent)
      (d l : Option String) (atts : Option (List String)),
      pytzOffset tz = some tzOff →
      ((check_calendar_availability sysOff true query cal (.naive w1) (.naive w2) tz).2.length = 1 ∧
        ∀ r ∈ (check_calendar_availability sysOff true query cal (.naive w1) (.naive w2) tz).2,
          r.timeMin = ⟨w1 - sysOff, tzOff⟩ ∧ r.timeMax = ⟨w2 - sysOff, tzOff⟩) ∧
      ((create_calendar_event sysOff true ins cal summ (.naive w1) (.naive w2) d l atts tz).2.length = 1 ∧
        ∀ p ∈ (create_calendar_event sysOff true ins cal summ (.naive w1) (.naive w2) d l atts tz).2,
          p.2.start.dateTime = ⟨w1 - sysOff, tzOff⟩ ∧ p.2.end_.dateTime = ⟨w2 - sysOff, tzOff⟩) ∧
      ((⟨w1 - sysOff, tzOff⟩ : Aware) = targetZoneInterpretation w1 tzOff ↔ sysOff = tzOff) := by
  intro sysOff tzOff w1 w2 tz cal summ query ins d l atts htz
  refine ⟨⟨?_, ?_⟩, ⟨?_, ?_⟩, ?_⟩
  · simp [check_calendar_availability, fromisoformat, htz]
  · intro r hr
    simp only [check_calendar_availability, fromisoformat, htz] at hr
    simp_all [astimezone]
  · simp [create_calendar_event, fromisoformat, htz]
  · intro p hp
    simp only [create_calendar_event, fromisoformat, htz] at hp
    simp_all [astimezone]
  · simp [targetZoneInterpretation, Aware.mk.injEq, sub_right_inj, eq_comm]

/-- C1 amended witness: concrete instantiation at system offset 0 and zone
Asia/Kolkata. -/
theorem naive_input_system_zone_amended_witness :
    pytzOffset "Asia/Kolkata" = some 330 ∧
    (check_calendar_availability 0 true (fun _ => .ok []) "primary"
        (.naive 540) (.naive 600) "Asia/Kolkata").2.length = 1 :=
  ⟨rfl,
    (naive_input_system_zone_amended 0 330 540 600 "Asia/Kolkata" "primary" "s"
      (fun _ => .ok []) (fun _ _ => .ok ⟨none, none⟩) none none none rfl).1.1⟩

/-- C8 counterexample: with GOOGLE_CALENDAR_ID absent from the
environment, the import-time read in main.py raises ValueError, so server
startup fails instead of proceeding with the primary default. -/
theorem calendar_id_required_at_startup_counterexample :
    main_GOOGLE_CALENDAR_ID (fun _ => none) = .error calendarIdMissingMsg := rfl

/-- C8 amended: when the calendar identifier variable is absent, the
module-level CALENDAR_ID of calendar_utils falls back to primary, but the
HTTP facade treats the variable as required and fails startup with a
ValueError; the facade passes its own required value to every calendar
operation, so the primary default is not what the running server uses. -/
theorem calendar_id_default_amended :
    ∀ env : String → Option String, env "GOOGLE_CALENDAR_ID" = none →
      calendar_utils_CALENDAR_ID env = "primary" ∧
      main_GOOGLE_CALENDAR_ID env = .error calendarIdMissingMsg := by
  intro env h
  constructor <;> simp [calendar_utils_CALENDAR_ID, main_GOOGLE_CALENDAR_ID, h]

/-- C8 amended witness: concrete empty environment. -/
theorem calendar_id_default_amended_witness :
    calendar_utils_CALENDAR_ID (fun _ => none) = "primary" :=
  (calendar_id_default_amended (fun _ => none) rfl).1
